import Mathlib

/-!
Shallow embedding of the authentication handshake implemented in
`Auth Test/auth.py` of the fpl-dashboard repository.

The script is a straight-line pipeline: an authorization-page GET, a
policy-start POST, three login-step POSTs, a resume POST and a token
POST.  We embed it as a pure function `run` from the inputs (PKCE
verifier, initial state, credentials) and a "world" (the responses the
provider would return, one per request issued) to the trace of requests
issued together with either an error or the final token pair.

Machine-level pieces (SHA-256, base64url, the regular-expression scrapes)
are embedded as executable Lean functions over `Nat` bytes and `Char`
lists.
-/

/-- A JSON value, as used for the request bodies the script sends. -/
inductive Json where
  | str (s : String)
  | num (n : Nat)
  | bool (b : Bool)
  | arr (elems : List Json)
  | obj (fields : List (String × Json))


/-- Look up a top-level string field of a JSON object. -/
def Json.getStr? (j : Json) (key : String) : Option String :=
  match j with
  | .obj fields =>
    match fields.lookup key with
    | some (.str s) => some s
    | _ => none
  | _ => none

/-- One HTTP request as issued by the script: method, URL, query
parameters, headers, an optional JSON/form body, and whether automatic
redirect-following is enabled (`allow_redirects` in the source; it
defaults to true and is disabled only for the resume POST). -/
structure Request where
  method : String
  url : String
  params : List (String × String) := []
  headers : List (String × String) := []
  body : Option Json := none
  allowRedirects : Bool := true


/-- The string `id` field of a request's JSON body, when present. -/
def Request.bodyId (r : Request) : Option String :=
  r.body.bind (fun j => j.getStr? "id")

/-- One HTTP response as consumed by the script.  The script reads the
raw text (HTML scraping), string-valued JSON fields (via `.json()[key]`)
and response headers (`Location`); those are the only parts it consumes,
so the model carries exactly them. -/
structure Response where
  text : String := ""
  fields : List (String × String) := []
  headers : List (String × String) := []


/-- The exceptions the script can raise while consuming responses:
`patternNotFound` models `re.search(...)` returning `None` (so that
`.group(1)` raises), `missingField` models a `KeyError` on a JSON dict,
`missingHeader` a `KeyError` on the response headers. -/
inductive AuthError where
  | patternNotFound (pat : String)
  | missingField (key : String)
  | missingHeader (key : String)


/-! ## Regular-expression scrapes

The script uses three `re.search` calls:
  * `"accessToken":"([^"]+)"` on the authorization-page HTML,
  * `<input[^>]+name="state"[^>]+value="([^"]+)"` on the same HTML,
  * `[?&]code=([^&]+)` on the redirect `Location` header.
Each is embedded as a leftmost-match backtracking scanner over `List
Char`, with greedy `+` quantifiers tried longest-first exactly as the
regex engine does. -/

/-- Consume a literal prefix, returning the rest of the input. -/
def dropLit : List Char → List Char → Option (List Char)
  | [], rest => some rest
  | _ :: _, [] => none
  | l :: ls, c :: cs => if l = c then dropLit ls cs else none

/-- Try to match `[^"]+"`-style tail: a nonempty greedy run of
characters different from `stop`, which must be followed by `stop`
itself; returns the captured run.  (Greedy `[^x]+` takes the maximal
run, and the required closing `x` is present iff the run is proper.) -/
def captureUntil (stop : Char) (s : List Char) : Option (List Char) :=
  let run := s.takeWhile (fun c => c ≠ stop)
  if run.length ≠ 0 ∧ run.length < s.length then some run else none

/-- Match `"accessToken":"([^"]+)"` at the current position. -/
def accessTokenAt (s : List Char) : Option (List Char) :=
  match dropLit ("\"accessToken\":\"".toList) s with
  | some rest => captureUntil '"' rest
  | none => none

/-- `re.search(r'"accessToken":"([^\"]+)"', s)`: leftmost match. -/
def findAccessTokenAux : List Char → Option (List Char)
  | [] => none
  | c :: t => (accessTokenAt (c :: t)).orElse (fun _ => findAccessTokenAux t)

def findAccessToken (s : String) : Option String :=
  (findAccessTokenAux s.toList).map (fun l => String.mk l)

/-- For the `state` regex: after `name="state"` has been matched, try to
consume `[^>]+value="` with the greedy `[^>]+` tried longest-first
(length `k` downward), then capture `([^"]+)` before the closing quote. -/
def stateTailAt (s : List Char) (k : Nat) : Option (List Char) :=
  match k with
  | 0 => none
  | k + 1 =>
    (if (s.take (k + 1)).all (fun c => c ≠ '>') then
      match dropLit ("value=\"".toList) (s.drop (k + 1)) with
      | some rest => captureUntil '"' rest
      | none => none
      else none).orElse (fun _ => stateTailAt s k)

/-- After `<input` has been matched: consume `[^>]+name="state"` with
greedy `[^>]+` (longest first), then the tail via `stateTailAt`. -/
def stateMidAt (s : List Char) (k : Nat) : Option (List Char) :=
  match k with
  | 0 => none
  | k + 1 =>
    (if (s.take (k + 1)).all (fun c => c ≠ '>') then
      match dropLit ("name=\"state\"".toList) (s.drop (k + 1)) with
      | some rest => stateTailAt rest rest.length
      | none => none
      else none).orElse (fun _ => stateMidAt s k)

/-- Match `<input[^>]+name="state"[^>]+value="([^"]+)"` at the current
position. -/
def stateInputAt (s : List Char) : Option (List Char) :=
  match dropLit ("<input".toList) s with
  | some rest => stateMidAt rest rest.length
  | none => none

/-- `re.search` of the state-input regex: leftmost match. -/
def findStateInputAux : List Char → Option (List Char)
  | [] => none
  | c :: t => (stateInputAt (c :: t)).orElse (fun _ => findStateInputAux t)

def findStateInput (s : String) : Option String :=
  (findStateInputAux s.toList).map (fun l => String.mk l)

/-- Match `[?&]code=([^&]+)` at the current position: a `?` or `&`,
the literal `code=`, then a nonempty greedy run of non-`&` characters
(no closing requirement). -/
def codeAt : List Char → Option (List Char)
  | [] => none
  | c :: t =>
    if c = '?' ∨ c = '&' then
      match dropLit ("code=".toList) t with
      | some rest =>
        let run := rest.takeWhile (fun ch => ch ≠ '&')
        if run.length ≠ 0 then some run else none
      | none => none
    else none

/-- `re.search(r"[?&]code=([^&]+)", s)`: leftmost match. -/
def findCodeAux : List Char → Option (List Char)
  | [] => none
  | c :: t => (codeAt (c :: t)).orElse (fun _ => findCodeAux t)

def findCode (s : String) : Option String :=
  (findCodeAux s.toList).map (fun l => String.mk l)

/-! ## SHA-256 (`hashlib.sha256`)

A direct executable embedding of FIPS 180-4 SHA-256 over lists of bytes
(`Nat` values below 256), with 32-bit words as `Nat` reduced modulo
`2 ^ 32` where overflow matters. -/

/-- 32-bit right-rotation. -/
def rotr32 (n x : Nat) : Nat := ((x >>> n) ||| (x <<< (32 - n))) % 2 ^ 32

def sigma0 (x : Nat) : Nat := rotr32 7 x ^^^ rotr32 18 x ^^^ (x >>> 3)

def sigma1 (x : Nat) : Nat := rotr32 17 x ^^^ rotr32 19 x ^^^ (x >>> 10)

def bigSigma0 (x : Nat) : Nat := rotr32 2 x ^^^ rotr32 13 x ^^^ rotr32 22 x

def bigSigma1 (x : Nat) : Nat := rotr32 6 x ^^^ rotr32 11 x ^^^ rotr32 25 x

def chFn (x y z : Nat) : Nat := (x &&& y) ^^^ ((x ^^^ 0xffffffff) &&& z)

def majFn (x y z : Nat) : Nat := (x &&& y) ^^^ (x &&& z) ^^^ (y &&& z)

/-- The 64 SHA-256 round constants. -/
def sha256K : List Nat :=
  [1116352408, 1899447441, 3049323471, 3921009573, 961987163,
   1508970993, 2453635748, 2870763221, 3624381080, 310598401,
   607225278, 1426881987, 1925078388, 2162078206, 2614888103,
   3248222580, 3835390401, 4022224774, 264347078, 604807628,
   770255983, 1249150122, 1555081692, 1996064986, 2554220882,
   2821834349, 2952996808, 3210313671, 3336571891, 3584528711,
   113926993, 338241895, 666307205, 773529912, 1294757372,
   1396182291, 1695183700, 1986661051, 2177026350, 2456956037,
   2730485921, 2820302411, 3259730800, 3345764771, 3516065817,
   3600352804, 4094571909, 275423344, 430227734, 506948616,
   659060556, 883997877, 958139571, 1322822218, 1537002063,
   1747873779, 1955562222, 2024104815, 2227730452, 2361852424,
   2428436474, 2756734187, 3204031479, 3329325298]

/-- The initial SHA-256 hash value. -/
def sha256H0 : List Nat :=
  [1779033703, 3144134277, 1013904242, 2773480762,
   1359893119, 2600822924, 528734635, 1541459225]

/-- The 8-byte big-endian encoding of the message bit length. -/
def lenBytes (n : Nat) : List Nat :=
  [(n >>> 56) % 256, (n >>> 48) % 256, (n >>> 40) % 256, (n >>> 32) % 256,
   (n >>> 24) % 256, (n >>> 16) % 256, (n >>> 8) % 256, n % 256]

/-- SHA-256 padding: append `0x80`, zeros to 56 mod 64, and the 64-bit
big-endian bit length. -/
def sha256Pad (msg : List Nat) : List Nat :=
  msg ++ [0x80] ++ List.replicate ((120 - (msg.length + 1) % 64) % 64) 0
      ++ lenBytes (msg.length * 8)

/-- Split a byte list into 64-byte blocks (structural recursion on a
fuel bound so the definition reduces in the kernel; `fuel = l.length`
always suffices since each block consumes at least one byte). -/
def chunks64Fuel : Nat → List Nat → List (List Nat)
  | 0, _ => []
  | _, [] => []
  | fuel + 1, b :: t => (b :: t.take 63) :: chunks64Fuel fuel (t.drop 63)

/-- Split a byte list into 64-byte blocks. -/
def chunks64 (l : List Nat) : List (List Nat) := chunks64Fuel l.length l

/-- Big-endian assembly of 4-byte groups into 32-bit words. -/
def toWords : List Nat → List Nat
  | b0 :: b1 :: b2 :: b3 :: t =>
    ((b0 % 256) * 16777216 + (b1 % 256) * 65536 + (b2 % 256) * 256 + b3 % 256) :: toWords t
  | _ => []

/-- Extend the 16 block words to the 64-entry message schedule. -/
def extendW (w16 : List Nat) : List Nat :=
  (List.range 48).foldl
    (fun acc _ =>
      let t := acc.length
      acc ++ [(sigma1 (acc.getD (t - 2) 0) + acc.getD (t - 7) 0 +
               sigma0 (acc.getD (t - 15) 0) + acc.getD (t - 16) 0) % 2 ^ 32])
    w16

/-- One round of the SHA-256 compression function. -/
def sha256Round (w : List Nat) (st : Nat × Nat × Nat × Nat × Nat × Nat × Nat × Nat) (t : Nat) :
    Nat × Nat × Nat × Nat × Nat × Nat × Nat × Nat :=
  let (a, b, c, d, e, f, g, h) := st
  let T1 := (h + bigSigma1 e + chFn e f g + sha256K.getD t 0 + w.getD t 0) % 2 ^ 32
  let T2 := (bigSigma0 a + majFn a b c) % 2 ^ 32
  ((T1 + T2) % 2 ^ 32, a, b, c, (d + T1) % 2 ^ 32, e, f, g)

/-- Process one 64-byte block. -/
def sha256Compress (H : List Nat) (block : List Nat) : List Nat :=
  let w := extendW (toWords block)
  let (a, b, c, d, e, f, g, h) :=
    (List.range 64).foldl (sha256Round w)
      (H.getD 0 0, H.getD 1 0, H.getD 2 0, H.getD 3 0,
       H.getD 4 0, H.getD 5 0, H.getD 6 0, H.getD 7 0)
  [(H.getD 0 0 + a) % 2 ^ 32, (H.getD 1 0 + b) % 2 ^ 32, (H.getD 2 0 + c) % 2 ^ 32,
   (H.getD 3 0 + d) % 2 ^ 32, (H.getD 4 0 + e) % 2 ^ 32, (H.getD 5 0 + f) % 2 ^ 32,
   (H.getD 6 0 + g) % 2 ^ 32, (H.getD 7 0 + h) % 2 ^ 32]

/-- Big-endian bytes of a 32-bit word. -/
def wordBytes (w : Nat) : List Nat :=
  [(w >>> 24) % 256, (w >>> 16) % 256, (w >>> 8) % 256, w % 256]

/-- SHA-256 digest of a byte list: 32 bytes. -/
def sha256 (msg : List Nat) : List Nat :=
  (((chunks64 (sha256Pad msg)).foldl sha256Compress sha256H0).map wordBytes).flatten

/-- UTF-8 encoding of one code point (Python `str.encode()`). -/
def utf8Char (n : Nat) : List Nat :=
  if n < 0x80 then [n]
  else if n < 0x800 then [0xc0 ||| (n >>> 6), 0x80 ||| (n &&& 0x3f)]
  else if n < 0x10000 then
    [0xe0 ||| (n >>> 12), 0x80 ||| ((n >>> 6) &&& 0x3f), 0x80 ||| (n &&& 0x3f)]
  else
    [0xf0 ||| (n >>> 18), 0x80 ||| ((n >>> 12) &&& 0x3f),
     0x80 ||| ((n >>> 6) &&& 0x3f), 0x80 ||| (n &&& 0x3f)]

/-- UTF-8 encoding of a string (Python `str.encode()`). -/
def utf8Bytes (s : String) : List Nat :=
  (s.toList.map (fun c => utf8Char c.toNat)).flatten

/-! ## URL-safe base64 (`base64.urlsafe_b64encode`, `secrets.token_urlsafe`) -/

/-- The URL-safe base64 alphabet (RFC 4648 §5), as used by Python's
`base64.urlsafe_b64encode`. -/
def b64Alphabet : List Char :=
  "ABCDEFGHIJKLMNOPQRSTUVWXYZabcdefghijklmnopqrstuvwxyz0123456789-_".toList

def b64c (i : Nat) : Char := b64Alphabet.getD i 'A'

/-- `base64.urlsafe_b64encode` over byte lists, producing the padded
encoding: each 3-byte group yields 4 alphabet characters; a trailing
1- or 2-byte group is zero-extended and padded with `=`. -/
def b64Pad : List Nat → List Char
  | [] => []
  | [a] =>
    let n := (a % 256) * 65536
    [b64c ((n >>> 18) % 64), b64c ((n >>> 12) % 64), '=', '=']
  | [a, b] =>
    let n := (a % 256) * 65536 + (b % 256) * 256
    [b64c ((n >>> 18) % 64), b64c ((n >>> 12) % 64), b64c ((n >>> 6) % 64), '=']
  | a :: b :: c :: t =>
    let n := (a % 256) * 65536 + (b % 256) * 256 + c % 256
    b64c ((n >>> 18) % 64) :: b64c ((n >>> 12) % 64) :: b64c ((n >>> 6) % 64) ::
      b64c (n % 64) :: b64Pad t

/-- The same encoding without the `=` padding characters. -/
def b64NoPad : List Nat → List Char
  | [] => []
  | [a] =>
    let n := (a % 256) * 65536
    [b64c ((n >>> 18) % 64), b64c ((n >>> 12) % 64)]
  | [a, b] =>
    let n := (a % 256) * 65536 + (b % 256) * 256
    [b64c ((n >>> 18) % 64), b64c ((n >>> 12) % 64), b64c ((n >>> 6) % 64)]
  | a :: b :: c :: t =>
    let n := (a % 256) * 65536 + (b % 256) * 256 + c % 256
    b64c ((n >>> 18) % 64) :: b64c ((n >>> 12) % 64) :: b64c ((n >>> 6) % 64) ::
      b64c (n % 64) :: b64NoPad t

/-- Python `str.rstrip("=")`: remove all trailing `=` characters. -/
def rstripEq (l : List Char) : List Char :=
  (l.reverse.dropWhile (fun c => c = '=')).reverse

/-- `secrets.token_urlsafe` applied to given random bytes:
`base64.urlsafe_b64encode(bytes).rstrip(b"=")`. -/
def token_urlsafe (bytes : List Nat) : List Char :=
  rstripEq (b64Pad bytes)

/-- `generate_code_verifier` from `auth.py`:
`secrets.token_urlsafe(64)[:128]`, parameterised by the 64 random bytes
drawn from the secure source. -/
def generate_code_verifier (randomBytes : List Nat) : String :=
  String.mk ((token_urlsafe randomBytes).take 128)

/-- `generate_code_challenge` from `auth.py`:
`base64.urlsafe_b64encode(hashlib.sha256(verifier.encode()).digest()).decode().rstrip("=")`. -/
def generate_code_challenge (verifier : String) : String :=
  String.mk (rstripEq (b64Pad (sha256 (utf8Bytes verifier))))

/-- The challenge as the spec words it: "challenge =
base64url(SHA-256(verifier)) with padding stripped", reading `base64url`
as the unpadded RFC 4648 §5 encoding. -/
def specChallenge (verifier : String) : String :=
  String.mk (b64NoPad (sha256 (utf8Bytes verifier)))

/-- The URL-safe alphabet of the spec: letters, digits, `-` and `_`. -/
def isUrlSafeChar (c : Char) : Bool :=
  ('A' ≤ c && c ≤ 'Z') || ('a' ≤ c && c ≤ 'z') || ('0' ≤ c && c ≤ '9') || c = '-' || c = '_'

/-! ## The handshake pipeline (`auth.py` top level)

Constants and request builders, then `run`: the straight-line script as
a function of its inputs and of the responses the provider returns.
`world n` is the response to the `n`-th request issued (the script is
straight-line, so responses are consumed in issue order). -/

def CLIENT_ID : String := "bfcbaf69-aade-4c1b-8f00-c1cb8a193030"

def REDIRECT_URI : String := "https://fantasy.premierleague.com/"

namespace URLS

def auth : String := "https://account.premierleague.com/as/authorize"

def start : String :=
  "https://account.premierleague.com/davinci/policy/262ce4b01d19dd9d385d26bddb4297b6/start"

/-- `URLS["login"].format(connectionId)`. -/
def login (connectionId : String) : String :=
  "https://account.premierleague.com/davinci/connections/" ++ connectionId ++
    "/capabilities/customHTMLTemplate"

def resume : String := "https://account.premierleague.com/as/resume"

def token : String := "https://account.premierleague.com/as/token"

end URLS

def STANDARD_CONNECTION_ID : String := "0d8c928e4970386733ce110b9dda8412"

/-- The authorization-page GET with its query parameters. -/
def authorizeRequest (challenge initialState : String) : Request :=
  { method := "GET", url := URLS.auth,
    params := [("client_id", "bfcbaf69-aade-4c1b-8f00-c1cb8a193030"),
               ("redirect_uri", "https://fantasy.premierleague.com/"),
               ("response_type", "code"),
               ("scope", "openid profile email offline_access"),
               ("state", initialState),
               ("code_challenge", challenge),
               ("code_challenge_method", "S256")] }

/-- The `headers` dict built after scraping the bootstrap access token. -/
def bearerHeaders (accessToken : String) : List (String × String) :=
  [("Authorization", "Bearer " ++ accessToken), ("Content-Type", "application/json")]

/-- The policy-start POST. -/
def startRequest (accessToken : String) : Request :=
  { method := "POST", url := URLS.start, headers := bearerHeaders accessToken }

/-- The headers dict passed to login steps 1 and 2. -/
def interactionHeaders (interactionId interactionToken : String) : List (String × String) :=
  [("interactionId", interactionId), ("interactionToken", interactionToken)]

/-- The JSON body of login step 1 (poll-continue). -/
def step1Body (envelopeId : String) : Json :=
  .obj [("id", .str envelopeId),
        ("eventName", .str "continue"),
        ("parameters", .obj [("eventType", .str "polling")]),
        ("pollProps", .obj [("status", .str "continue"),
                            ("delayInMs", .num 10),
                            ("retriesAllowed", .num 1),
                            ("pollChallengeStatus", .bool false)])]

/-- The shared `nextEvent` descriptor of login steps 2 and 3. -/
def nextEventJson : Json :=
  .obj [("constructType", .str "skEvent"),
        ("eventName", .str "continue"),
        ("params", .arr []),
        ("eventType", .str "post"),
        ("postProcess", .obj [])]

/-- The JSON body of login step 2 (credential submission). -/
def step2Body (envelopeId email password : String) : Json :=
  .obj [("id", .str envelopeId),
        ("nextEvent", nextEventJson),
        ("parameters", .obj [("buttonType", .str "form-submit"),
                             ("buttonValue", .str "SIGNON"),
                             ("username", .str email),
                             ("password", .str password)]),
        ("eventName", .str "continue")]

/-- The JSON body of login step 3 (confirmation submission). -/
def step3Body (envelopeId : String) : Json :=
  .obj [("id", .str envelopeId),
        ("nextEvent", nextEventJson),
        ("parameters", .obj [("buttonType", .str "form-submit"),
                             ("buttonValue", .str "SIGNON")]),
        ("eventName", .str "continue")]

/-- Login step 1: interaction-scoped headers, default connection id. -/
def step1Request (interactionId interactionToken envelopeId : String) : Request :=
  { method := "POST", url := URLS.login STANDARD_CONNECTION_ID,
    headers := interactionHeaders interactionId interactionToken,
    body := some (step1Body envelopeId) }

/-- Login step 2: interaction-scoped headers, default connection id. -/
def step2Request (interactionId interactionToken envelopeId email password : String) : Request :=
  { method := "POST", url := URLS.login STANDARD_CONNECTION_ID,
    headers := interactionHeaders interactionId interactionToken,
    body := some (step2Body envelopeId email password) }

/-- Login step 3: the source passes `headers=headers` — the bearer
headers built at the policy-start step — and the connection id returned
by step 2. -/
def step3Request (accessToken connectionId envelopeId : String) : Request :=
  { method := "POST", url := URLS.login connectionId,
    headers := bearerHeaders accessToken,
    body := some (step3Body envelopeId) }

/-- The resume POST: form body, `allow_redirects=False`. -/
def resumeRequest (dvResponse state : String) : Request :=
  { method := "POST", url := URLS.resume,
    body := some (.obj [("dvResponse", .str dvResponse), ("state", .str state)]),
    allowRedirects := false }

/-- The token-exchange POST body. -/
def tokenBody (authCode verifier : String) : Json :=
  .obj [("grant_type", .str "authorization_code"),
        ("redirect_uri", .str "https://fantasy.premierleague.com/"),
        ("code", .str authCode),
        ("code_verifier", .str verifier),
        ("client_id", .str "bfcbaf69-aade-4c1b-8f00-c1cb8a193030")]

def tokenRequest (authCode verifier : String) : Request :=
  { method := "POST", url := URLS.token, body := some (tokenBody authCode verifier) }

/-- The handshake pipeline of `auth.py`, from the authorization GET to
the token exchange.  Returns the trace of requests issued (in order)
and either the first exception raised or the final
`(access_token, refresh_token)` pair. -/
def run (verifier initialState email password : String) (world : Nat → Response) :
    List Request × Except AuthError (String × String) :=
  let challenge := generate_code_challenge verifier
  let req0 := authorizeRequest challenge initialState
  let r0 := world 0
  match findAccessToken r0.text with
  | none => ([req0], .error (.patternNotFound "accessToken"))
  | some accessToken =>
  match findStateInput r0.text with
  | none => ([req0], .error (.patternNotFound "state"))
  | some newState =>
  let req1 := startRequest accessToken
  let r1 := world 1
  match r1.fields.lookup "interactionId" with
  | none => ([req0, req1], .error (.missingField "interactionId"))
  | some interactionId =>
  match r1.fields.lookup "interactionToken" with
  | none => ([req0, req1], .error (.missingField "interactionToken"))
  | some interactionToken =>
  match r1.fields.lookup "id" with
  | none => ([req0, req1], .error (.missingField "id"))
  | some envelopeId0 =>
  let req2 := step1Request interactionId interactionToken envelopeId0
  let r2 := world 2
  match r2.fields.lookup "id" with
  | none => ([req0, req1, req2], .error (.missingField "id"))
  | some envelopeId1 =>
  let req3 := step2Request interactionId interactionToken envelopeId1 email password
  let r3 := world 3
  match r3.fields.lookup "connectionId" with
  | none => ([req0, req1, req2, req3], .error (.missingField "connectionId"))
  | some connectionId =>
  match r3.fields.lookup "id" with
  | none => ([req0, req1, req2, req3], .error (.missingField "id"))
  | some envelopeId2 =>
  let req4 := step3Request accessToken connectionId envelopeId2
  let r4 := world 4
  match r4.fields.lookup "dvResponse" with
  | none => ([req0, req1, req2, req3, req4], .error (.missingField "dvResponse"))
  | some dvResponse =>
  let req5 := resumeRequest dvResponse newState
  let r5 := world 5
  match r5.headers.lookup "Location" with
  | none => ([req0, req1, req2, req3, req4, req5], .error (.missingHeader "Location"))
  | some location =>
  match findCode location with
  | none => ([req0, req1, req2, req3, req4, req5], .error (.patternNotFound "code"))
  | some authCode =>
  let req6 := tokenRequest authCode verifier
  let r6 := world 6
  match r6.fields.lookup "access_token" with
  | none => ([req0, req1, req2, req3, req4, req5, req6], .error (.missingField "access_token"))
  | some accessTokenFinal =>
  match r6.fields.lookup "refresh_token" with
  | none => ([req0, req1, req2, req3, req4, req5, req6], .error (.missingField "refresh_token"))
  | some refreshToken =>
  ([req0, req1, req2, req3, req4, req5, req6], .ok (accessTokenFinal, refreshToken))

/-! ## Concrete worlds for witnesses and counterexamples

`happyWorld` follows the deterministic end-to-end scenario of the spec's
testable properties: every response carries exactly the fields the next
step consumes. -/

/-- The authorization-page HTML of the happy path. -/
def happyHtml : String :=
  "<html>\"accessToken\":\"tok1\" <input type=\"hidden\" name=\"state\" value=\"st2\"></html>"

def happyWorld : Nat → Response
  | 0 => { text := happyHtml }
  | 1 => { fields := [("interactionId", "i1"), ("interactionToken", "it1"), ("id", "e1")] }
  | 2 => { fields := [("id", "e2")] }
  | 3 => { fields := [("id", "e3"), ("connectionId", "c2")] }
  | 4 => { fields := [("dvResponse", "dv1")] }
  | 5 => { headers := [("Location", "https://x/?state=s&code=AUTH9")] }
  | 6 => { fields := [("access_token", "A1"), ("refresh_token", "R1")] }
  | _ => {}

/-- Like `happyWorld` but the resume redirect's `Location` lacks a
`code` query parameter. -/
def noCodeWorld : Nat → Response
  | 5 => { headers := [("Location", "https://x/?state=s")] }
  | n => happyWorld n

/-- Like `happyWorld` but the authorization HTML has no `state` input. -/
def noStateWorld : Nat → Response
  | 0 => { text := "<html>\"accessToken\":\"tok1\" no hidden field</html>" }
  | n => happyWorld n

/-- Like `happyWorld` but the token response lacks `refresh_token`. -/
def noRefreshWorld : Nat → Response
  | 6 => { fields := [("access_token", "A1")] }
  | n => happyWorld n

/-! ## Base64 lemmas -/

/-- Number of `=` padding characters of the padded encoding. -/
def b64PadLen : List Nat → Nat
  | [] => 0
  | [_] => 2
  | [_, _] => 1
  | _ :: _ :: _ :: t => b64PadLen t

theorem isUrlSafeChar_b64c {i : Nat} (h : i < 64) : isUrlSafeChar (b64c i) = true := by
  revert h
  have : ∀ j < 64, isUrlSafeChar (b64c j) = true := by decide
  exact this i

theorem isUrlSafeChar_b64c_mod (i : Nat) : isUrlSafeChar (b64c (i % 64)) = true :=
  isUrlSafeChar_b64c (Nat.mod_lt _ (by norm_num))

theorem b64c_mod_ne_eq (i : Nat) : b64c (i % 64) ≠ '=' := by
  intro h
  have := isUrlSafeChar_b64c_mod i
  rw [h] at this
  exact absurd this (by decide)

/-- Every character of the unpadded encoding is URL-safe. -/
theorem b64NoPad_urlsafe : ∀ l : List Nat, ∀ c ∈ b64NoPad l, isUrlSafeChar c = true
  | [], c, h => by simp [b64NoPad] at h
  | [a], c, h => by
    simp only [b64NoPad, List.mem_cons, List.mem_singleton, List.not_mem_nil, or_false] at h
    rcases h with h | h <;> (subst h; exact isUrlSafeChar_b64c_mod _)
  | [a, b], c, h => by
    simp only [b64NoPad, List.mem_cons, List.not_mem_nil, or_false] at h
    rcases h with h | h | h <;> (subst h; exact isUrlSafeChar_b64c_mod _)
  | a :: b :: d :: t, c, h => by
    simp only [b64NoPad, List.mem_cons] at h
    rcases h with h | h | h | h | h
    · subst h; exact isUrlSafeChar_b64c_mod _
    · subst h; exact isUrlSafeChar_b64c_mod _
    · subst h; exact isUrlSafeChar_b64c_mod _
    · subst h; exact isUrlSafeChar_b64c_mod _
    · exact b64NoPad_urlsafe t c h

theorem b64NoPad_ne_eq (l : List Nat) (c : Char) (h : c ∈ b64NoPad l) : c ≠ '=' := by
  intro hc
  have := b64NoPad_urlsafe l c h
  rw [hc] at this
  exact absurd this (by decide)

/-- The padded encoding is the unpadded one followed by the padding. -/
theorem b64Pad_eq_noPad_append :
    ∀ l : List Nat, b64Pad l = b64NoPad l ++ List.replicate (b64PadLen l) '='
  | [] => by simp [b64Pad, b64NoPad, b64PadLen]
  | [a] => by simp [b64Pad, b64NoPad, b64PadLen, List.replicate]
  | [a, b] => by simp [b64Pad, b64NoPad, b64PadLen, List.replicate]
  | a :: b :: c :: t => by
    simp only [b64Pad, b64NoPad, b64PadLen]
    rw [b64Pad_eq_noPad_append t]
    simp

theorem dropWhile_replicate_append (k : Nat) (r : List Char) :
    (List.replicate k '=' ++ r).dropWhile (fun c => c = '=') = r.dropWhile (fun c => c = '=') := by
  induction k with
  | zero => simp
  | succ k ih => simp [List.replicate_succ, ih]

/-- Stripping trailing `=` from a list with no `=` followed by padding
recovers the list. -/
theorem rstripEq_append_replicate (l : List Char) (hl : ∀ c ∈ l, c ≠ '=') (k : Nat) :
    rstripEq (l ++ List.replicate k '=') = l := by
  unfold rstripEq
  rw [List.reverse_append, List.reverse_replicate, dropWhile_replicate_append]
  cases h : l.reverse with
  | nil =>
    have : l = [] := by simpa using congrArg List.reverse h
    simp [this]
  | cons c t =>
    have hc : c ∈ l := by
      have : c ∈ l.reverse := by rw [h]; exact List.mem_cons_self c t
      simpa using this
    rw [List.dropWhile_cons_of_neg (by simpa using hl c hc)]
    rw [← h, List.reverse_reverse]

/-- `token_urlsafe` equals the unpadded URL-safe base64 encoding. -/
theorem token_urlsafe_eq_noPad (bytes : List Nat) : token_urlsafe bytes = b64NoPad bytes := by
  unfold token_urlsafe
  rw [b64Pad_eq_noPad_append, rstripEq_append_replicate _ (b64NoPad_ne_eq bytes)]

/-- Length of the unpadded encoding. -/
theorem b64NoPad_length : ∀ l : List Nat, (b64NoPad l).length = (4 * l.length + 2) / 3
  | [] => by simp [b64NoPad]
  | [a] => by simp [b64NoPad]
  | [a, b] => by simp [b64NoPad]
  | a :: b :: c :: t => by
    simp only [b64NoPad, List.length_cons]
    rw [b64NoPad_length t]
    omega

/-! ## Validation of the SHA-256 embedding against a FIPS test vector -/

set_option maxRecDepth 10000 in
theorem sha256_test_vector :
    sha256 (utf8Bytes "abc") =
      [186, 120, 22, 191, 143, 1, 207, 234, 65, 65, 64, 222, 93, 174, 34, 35,
       176, 3, 97, 163, 150, 23, 122, 156, 180, 16, 255, 97, 242, 0, 21, 173] := by
  decide

/-! ## Claim theorems -/

/-- C6: for every verifier string, the generated code challenge equals
the base64url encoding of the SHA-256 digest of the verifier with all
trailing `=` padding removed, and the challenge is a deterministic pure
function of the verifier (two calls on the same verifier return the
same challenge). -/
theorem c6_challenge_spec (v : String) :
    generate_code_challenge v = specChallenge v ∧
      generate_code_challenge v = generate_code_challenge v := by
  refine ⟨?_, rfl⟩
  unfold generate_code_challenge specChallenge
  rw [b64Pad_eq_noPad_append, rstripEq_append_replicate _ (b64NoPad_ne_eq _)]

/-- C7: every verifier returned by the PKCE generator (for any draw of
the 64 random bytes) has length at least 43 and at most 128 and
consists only of URL-safe characters (letters, digits, `-`, `_`). -/
theorem c7_verifier_valid (rnd : List Nat) (h : rnd.length = 64) :
    43 ≤ (generate_code_verifier rnd).length ∧ (generate_code_verifier rnd).length ≤ 128 ∧
      ∀ c ∈ (generate_code_verifier rnd).toList, isUrlSafeChar c = true := by
  have hlen : (token_urlsafe rnd).length = 86 := by
    rw [token_urlsafe_eq_noPad, b64NoPad_length, h]
  have htake : (token_urlsafe rnd).take 128 = token_urlsafe rnd :=
    List.take_of_length_le (by omega)
  have hL : (generate_code_verifier rnd).length = 86 := by
    simp [generate_code_verifier, String.length, htake, hlen]
  refine ⟨by omega, by omega, ?_⟩
  intro c hc
  have hc' : c ∈ (token_urlsafe rnd).take 128 := hc
  have : c ∈ token_urlsafe rnd := List.take_subset _ _ hc'
  rw [token_urlsafe_eq_noPad] at this
  exact b64NoPad_urlsafe rnd c this

/-- Witness for C7 at a concrete draw of 64 random bytes. -/
theorem c7_witness :
    (List.replicate 64 (0 : Nat)).length = 64 ∧
      (43 ≤ (generate_code_verifier (List.replicate 64 0)).length ∧
        (generate_code_verifier (List.replicate 64 0)).length ≤ 128 ∧
        ∀ c ∈ (generate_code_verifier (List.replicate 64 0)).toList, isUrlSafeChar c = true) :=
  ⟨by simp, c7_verifier_valid _ (by simp)⟩

/-- C8: if the authorization-page HTML contains no hidden form input
named `state`, the run fails with a protocol-shape (pattern-not-found)
error and the trace contains only the authorization request — no
policy-start, login, resume or token request is ever issued. -/
theorem c8_fail_fast_no_state (v s0 em pw : String) (world : Nat → Response)
    (h : findStateInput (world 0).text = none) :
    (run v s0 em pw world).1 = [authorizeRequest (generate_code_challenge v) s0] ∧
      ∃ pat, (run v s0 em pw world).2 = Except.error (.patternNotFound pat) := by
  unfold run
  cases hA : findAccessToken (world 0).text with
  | none => simp [hA]
  | some tok => simp [hA, h]

/-- Witness for C8: a concrete world whose authorization HTML lacks the
`state` input. -/
theorem c8_witness :
    findStateInput (noStateWorld 0).text = none ∧
      ((run "v" "s0" "e" "pw" noStateWorld).1 =
          [authorizeRequest (generate_code_challenge "v") "s0"] ∧
        ∃ pat, (run "v" "s0" "e" "pw" noStateWorld).2 = Except.error (.patternNotFound pat)) :=
  ⟨by decide, c8_fail_fast_no_state "v" "s0" "e" "pw" noStateWorld (by decide)⟩

/-- `URLS.login` is injective in the connection id: distinct ids give
distinct request targets. -/
theorem URLS_login_inj (a b : String) (h : URLS.login a = URLS.login b) : a = b := by
  unfold URLS.login at h
  have h' := congrArg String.data h
  simp only [String.data_append] at h'
  have h2 := List.append_cancel_right h'
  have h3 := List.append_cancel_left h2
  cases a; cases b; exact congrArg String.mk h3

/-- C1 counterexample: on the deterministic happy-path world, all seven
requests are issued, and the step-3 login request (index 4 of the
trace) carries neither `interactionId` nor `interactionToken` in its
headers — the source passes the bearer `headers` dict there, so the
claim that all three login steps carry the interaction credentials is
false. -/
theorem c1_counterexample :
    (run "v" "s0" "e" "pw" happyWorld).1.length = 7 ∧
      ((run "v" "s0" "e" "pw" happyWorld).1.map
          (fun r => r.headers.lookup "interactionId")) =
        [none, none, some "i1", some "i1", none, none, none] ∧
      ((run "v" "s0" "e" "pw" happyWorld).1.map
          (fun r => r.headers.lookup "interactionToken")) =
        [none, none, some "it1", some "it1", none, none, none] :=
  ⟨rfl, rfl, rfl⟩

/-- C1 (amended): the step-1 and step-2 login requests carry the
interaction credentials obtained from the policy-start response,
unchanged across the two steps; the step-3 login request instead
carries the bearer headers built from the bootstrap access token and
contains no interaction credentials. -/
theorem c1_amended (v s0 em pw : String) (world : Nat → Response)
    (reqs : List Request) (res : Except AuthError (String × String))
    (hR : run v s0 em pw world = (reqs, res)) :
    (∀ r, reqs[2]? = some r →
        r.headers.lookup "interactionId" = (world 1).fields.lookup "interactionId" ∧
        r.headers.lookup "interactionToken" = (world 1).fields.lookup "interactionToken") ∧
      (∀ r, reqs[3]? = some r →
        r.headers.lookup "interactionId" = (world 1).fields.lookup "interactionId" ∧
        r.headers.lookup "interactionToken" = (world 1).fields.lookup "interactionToken") ∧
      (∀ r, reqs[4]? = some r →
        r.headers.lookup "interactionId" = none ∧
        r.headers.lookup "interactionToken" = none ∧
        ∃ tok, findAccessToken (world 0).text = some tok ∧ r.headers = bearerHeaders tok) := by
  simp only [run] at hR
  repeat' split at hR
  all_goals (injection hR with h1 h2; subst h1; subst h2)
  all_goals simp_all [step1Request, step2Request, step3Request, interactionHeaders,
    bearerHeaders, List.lookup]
  all_goals (constructor <;> (rintro a b (⟨rfl, -⟩ | ⟨rfl, -⟩) <;> decide))

/-- Witness for C1 (amended) on the happy-path world. -/
theorem c1_witness :
    (step1Request "i1" "it1" "e1").headers.lookup "interactionId" =
        (happyWorld 1).fields.lookup "interactionId" ∧
      (step2Request "i1" "it1" "e2" "e" "pw").headers.lookup "interactionId" =
        (happyWorld 1).fields.lookup "interactionId" ∧
      (step3Request "tok1" "c2" "e3").headers.lookup "interactionId" = none :=
  ⟨((c1_amended "v" "s0" "e" "pw" happyWorld _ _ rfl).1 _ rfl).1,
   ((c1_amended "v" "s0" "e" "pw" happyWorld _ _ rfl).2.1 _ rfl).1,
   ((c1_amended "v" "s0" "e" "pw" happyWorld _ _ rfl).2.2 _ rfl).1⟩

/-- C2: whenever the step-3 request exists, its URL is built from the
connection id returned in the step-2 response, and if that id differs
from the well-known default, the step-3 target differs from the targets
of steps 1 and 2. -/
theorem c2_connection_rotation (v s0 em pw : String) (world : Nat → Response)
    (reqs : List Request) (res : Except AuthError (String × String))
    (hR : run v s0 em pw world = (reqs, res))
    (r : Request) (hr : reqs[4]? = some r)
    (c : String) (hc : (world 3).fields.lookup "connectionId" = some c) :
    r.url = URLS.login c ∧
      (c ≠ STANDARD_CONNECTION_ID →
        ∀ r1 r2, reqs[2]? = some r1 → reqs[3]? = some r2 →
          r.url ≠ r1.url ∧ r.url ≠ r2.url) := by
  simp only [run] at hR
  repeat' split at hR
  all_goals (injection hR with h1 h2; subst h1; subst h2)
  all_goals simp_all
  all_goals
    (subst hr
     exact ⟨rfl, fun hne =>
       ⟨fun h => hne (URLS_login_inj c STANDARD_CONNECTION_ID h),
        fun h => hne (URLS_login_inj c STANDARD_CONNECTION_ID h)⟩⟩)

/-- Witness for C2 on the happy-path world, whose step-2 response
rotates the connection id to `c2`. -/
theorem c2_witness :
    (step3Request "tok1" "c2" "e3").url = URLS.login "c2" ∧
      (step3Request "tok1" "c2" "e3").url ≠ (step1Request "i1" "it1" "e1").url ∧
      (step3Request "tok1" "c2" "e3").url ≠ (step2Request "i1" "it1" "e2" "e" "pw").url :=
  ⟨(c2_connection_rotation "v" "s0" "e" "pw" happyWorld _ _ rfl _ rfl "c2" rfl).1,
   (c2_connection_rotation "v" "s0" "e" "pw" happyWorld _ _ rfl _ rfl "c2" rfl).2
     (by decide) _ _ rfl rfl⟩

/-- C3: the three login steps appear in the trace in order (step 2 is
only issued if step 1 was, step 3 only if step 2 was), and each embeds
exactly the `id` field of the immediately preceding response: step 1
the policy-start id, step 2 the step-1 response id, step 3 the step-2
response id. -/
theorem c3_id_threading (v s0 em pw : String) (world : Nat → Response)
    (reqs : List Request) (res : Except AuthError (String × String))
    (hR : run v s0 em pw world = (reqs, res)) :
    (∀ r, reqs[2]? = some r →
        r.bodyId = (world 1).fields.lookup "id" ∧ r.url = URLS.login STANDARD_CONNECTION_ID) ∧
      (∀ r, reqs[3]? = some r →
        r.bodyId = (world 2).fields.lookup "id" ∧ r.url = URLS.login STANDARD_CONNECTION_ID) ∧
      (∀ r, reqs[4]? = some r → r.bodyId = (world 3).fields.lookup "id") ∧
      (reqs[3]?.isSome → reqs[2]?.isSome) ∧
      (reqs[4]?.isSome → reqs[3]?.isSome) := by
  simp only [run] at hR
  repeat' split at hR
  all_goals (injection hR with h1 h2; subst h1; subst h2)
  all_goals simp_all [step1Request, step2Request, step3Request, Request.bodyId,
    step1Body, step2Body, step3Body, Json.getStr?, List.lookup]

/-- Witness for C3 on the happy-path world. -/
theorem c3_witness :
    (step1Request "i1" "it1" "e1").bodyId = (happyWorld 1).fields.lookup "id" ∧
      (step2Request "i1" "it1" "e2" "e" "pw").bodyId = (happyWorld 2).fields.lookup "id" ∧
      (step3Request "tok1" "c2" "e3").bodyId = (happyWorld 3).fields.lookup "id" ∧
      ((run "v" "s0" "e" "pw" happyWorld).1[2]?).isSome :=
  ⟨((c3_id_threading "v" "s0" "e" "pw" happyWorld _ _ rfl).1 _ rfl).1,
   ((c3_id_threading "v" "s0" "e" "pw" happyWorld _ _ rfl).2.1 _ rfl).1,
   (c3_id_threading "v" "s0" "e" "pw" happyWorld _ _ rfl).2.2.1 _ rfl,
   (c3_id_threading "v" "s0" "e" "pw" happyWorld _ _ rfl).2.2.2.1 (by rfl)⟩

/-- C4: whenever the resume request exists, it is issued with automatic
redirect-following disabled, to the resume endpoint, and the `state`
value in its body is exactly the value scraped from the hidden `state`
form input of the authorization-page HTML. -/
theorem c4_resume_state (v s0 em pw : String) (world : Nat → Response)
    (reqs : List Request) (res : Except AuthError (String × String))
    (hR : run v s0 em pw world = (reqs, res))
    (r : Request) (hr : reqs[5]? = some r) :
    r.allowRedirects = false ∧ r.url = URLS.resume ∧
      r.body.bind (fun j => j.getStr? "state") = findStateInput (world 0).text := by
  simp only [run] at hR
  repeat' split at hR
  all_goals (injection hR with h1 h2; subst h1; subst h2)
  all_goals simp_all [resumeRequest, Json.getStr?, List.lookup]
  all_goals (subst hr; simp [List.lookup])

/-- Witness for C4 on the happy-path world, whose HTML echoes state
`st2` (different from the initial state `s0`). -/
theorem c4_witness :
    (resumeRequest "dv1" "st2").allowRedirects = false ∧
      (resumeRequest "dv1" "st2").url = URLS.resume ∧
      (resumeRequest "dv1" "st2").body.bind (fun j => j.getStr? "state") =
        findStateInput (happyWorld 0).text :=
  c4_resume_state "v" "s0" "e" "pw" happyWorld _ _ rfl _ rfl

/-- C5: the code scrape extracts `ABC123` from
`https://x/?state=s&code=ABC123`; and for every execution whose resume
response carries a `Location` header in which the code pattern does not
match, the run ends in an error and no token request is ever issued. -/
theorem c5_code_extraction :
    findCode "https://x/?state=s&code=ABC123" = some "ABC123" ∧
      ∀ v s0 em pw world reqs res loc, run v s0 em pw world = (reqs, res) →
        (world 5).headers.lookup "Location" = some loc → findCode loc = none →
        (∃ e, res = Except.error e) ∧ reqs[6]? = none := by
  refine ⟨by decide, ?_⟩
  intro v s0 em pw world reqs res loc hR hloc hcode
  simp only [run] at hR
  repeat' split at hR
  all_goals (injection hR with h1 h2; subst h1; subst h2)
  all_goals simp_all

/-- Witness for C5 on a world whose resume redirect lacks a `code`
query parameter. -/
theorem c5_witness :
    (noCodeWorld 5).headers.lookup "Location" = some "https://x/?state=s" ∧
      findCode "https://x/?state=s" = none ∧
      ((∃ e, (run "v" "s0" "e" "pw" noCodeWorld).2 = Except.error e) ∧
        ((run "v" "s0" "e" "pw" noCodeWorld).1)[6]? = none) :=
  ⟨rfl, rfl,
   c5_code_extraction.2 "v" "s0" "e" "pw" noCodeWorld _ _ "https://x/?state=s" rfl rfl rfl⟩

/-- C9: whenever the run succeeds with a token pair, the token request
was issued as an `authorization_code` grant carrying the code extracted
from the resume redirect's `Location`, the verifier generated at the
start of the handshake, the fixed client id and the fixed redirect
target; and the resulting pair is exactly the `access_token` and
`refresh_token` fields of the token response. -/
theorem c9_token_exchange (v s0 em pw : String) (world : Nat → Response)
    (reqs : List Request) (res : Except AuthError (String × String))
    (hR : run v s0 em pw world = (reqs, res))
    (p : String × String) (hok : res = Except.ok p) :
    (∀ rq, reqs[6]? = some rq →
        rq.method = "POST" ∧ rq.url = URLS.token ∧
        rq.body.bind (fun j => j.getStr? "grant_type") = some "authorization_code" ∧
        rq.body.bind (fun j => j.getStr? "code") =
          ((world 5).headers.lookup "Location").bind findCode ∧
        rq.body.bind (fun j => j.getStr? "code_verifier") = some v ∧
        rq.body.bind (fun j => j.getStr? "client_id") = some CLIENT_ID ∧
        rq.body.bind (fun j => j.getStr? "redirect_uri") = some REDIRECT_URI) ∧
      reqs[6]?.isSome ∧
      (world 6).fields.lookup "access_token" = some p.1 ∧
      (world 6).fields.lookup "refresh_token" = some p.2 := by
  simp only [run] at hR
  repeat' split at hR
  all_goals (injection hR with h1 h2; subst h1; subst h2)
  all_goals simp_all [tokenRequest, tokenBody, Json.getStr?, List.lookup, CLIENT_ID, REDIRECT_URI]
  all_goals (subst hok; exact ⟨rfl, rfl⟩)

/-- Witness for C9 on the happy-path world: the run succeeds with the
pair `(A1, R1)` taken from the token response, and the token request
carries the code extracted from the redirect. -/
theorem c9_witness :
    ((run "v" "s0" "e" "pw" happyWorld).1[6]?).isSome ∧
      (happyWorld 6).fields.lookup "access_token" = some ("A1", "R1").1 ∧
      (happyWorld 6).fields.lookup "refresh_token" = some ("A1", "R1").2 ∧
      (tokenRequest "AUTH9" "v").body.bind (fun j => j.getStr? "code") =
        ((happyWorld 5).headers.lookup "Location").bind findCode := by
  have h := c9_token_exchange "v" "s0" "e" "pw" happyWorld _ _ rfl ("A1", "R1") rfl
  exact ⟨h.2.1, h.2.2.1, h.2.2.2, (h.1 (tokenRequest "AUTH9" "v") rfl).2.2.2.1⟩

/-- C10: whenever an expected response field is absent at any stage —
the `accessToken` or `state` scrape of the authorization HTML,
`interactionId`/`interactionToken`/`id` of the policy-start or
login-step JSON, `connectionId` of the step-2 JSON, `dvResponse` of the
step-3 JSON, the `Location` header at resume, or
`access_token`/`refresh_token` of the token response — the run ends in
an error (no token pair) and issues no request beyond the one whose
response was malformed. -/
theorem c10_missing_field_aborts (v s0 em pw : String) (world : Nat → Response)
    (reqs : List Request) (res : Except AuthError (String × String))
    (hR : run v s0 em pw world = (reqs, res)) :
    (findAccessToken (world 0).text = none → (∃ e, res = Except.error e) ∧ reqs.length ≤ 1) ∧
      (findStateInput (world 0).text = none → (∃ e, res = Except.error e) ∧ reqs.length ≤ 1) ∧
      ((world 1).fields.lookup "interactionId" = none →
        (∃ e, res = Except.error e) ∧ reqs.length ≤ 2) ∧
      ((world 1).fields.lookup "interactionToken" = none →
        (∃ e, res = Except.error e) ∧ reqs.length ≤ 2) ∧
      ((world 1).fields.lookup "id" = none → (∃ e, res = Except.error e) ∧ reqs.length ≤ 2) ∧
      ((world 2).fields.lookup "id" = none → (∃ e, res = Except.error e) ∧ reqs.length ≤ 3) ∧
      ((world 3).fields.lookup "connectionId" = none →
        (∃ e, res = Except.error e) ∧ reqs.length ≤ 4) ∧
      ((world 3).fields.lookup "id" = none → (∃ e, res = Except.error e) ∧ reqs.length ≤ 4) ∧
      ((world 4).fields.lookup "dvResponse" = none →
        (∃ e, res = Except.error e) ∧ reqs.length ≤ 5) ∧
      ((world 5).headers.lookup "Location" = none →
        (∃ e, res = Except.error e) ∧ reqs.length ≤ 6) ∧
      ((world 6).fields.lookup "access_token" = none →
        (∃ e, res = Except.error e) ∧ reqs.length ≤ 7) ∧
      ((world 6).fields.lookup "refresh_token" = none →
        (∃ e, res = Except.error e) ∧ reqs.length ≤ 7) := by
  simp only [run] at hR
  repeat' split at hR
  all_goals (injection hR with h1 h2; subst h1; subst h2)
  all_goals simp_all

/-- Witness for C10 on a world whose token response lacks
`refresh_token`: the run errors and the trace stops at the token
request. -/
theorem c10_witness :
    (noRefreshWorld 6).fields.lookup "refresh_token" = none ∧
      ((∃ e, (run "v" "s0" "e" "pw" noRefreshWorld).2 = Except.error e) ∧
        (run "v" "s0" "e" "pw" noRefreshWorld).1.length ≤ 7) := by
  have h := c10_missing_field_aborts "v" "s0" "e" "pw" noRefreshWorld _ _ rfl
  exact ⟨rfl, h.2.2.2.2.2.2.2.2.2.2.2 rfl⟩
